import Mathlib

/-!
Verification of the sqlalchemy celery-beat scheduler.

This file shallowly embeds the scheduling logic of the repository
(`scheduler.py`, `utils.py`, `models/celery_tasks_schedule.py`,
`models/celery_tasks_schedule_meta.py`) and proves the spec claims about
it.  Python values coming out of `json.loads` are modelled by `PyValue`,
machine time by integer seconds, and the database by explicit state
passing.  External collaborators (the JSON grammar accepted by
`json.loads`, the celery crontab field grammar, the celery exponential
backoff helper) are modelled faithfully to their documented behaviour
where noted.
-/

set_option maxRecDepth 8192

namespace CeleryBeatSqlalchemy

/-- Values produced by the Python `json.loads`, restricted to null,
booleans, integers, strings, arrays and objects.  (Non-integer JSON
numbers are accepted by Python but are not needed by any claim, so the
model parser rejects them; this only narrows the set of inputs the
model can talk about.) -/
inductive PyValue where
  | null
  | bool (b : Bool)
  | int (n : Int)
  | str (s : String)
  | list (xs : List PyValue)
  | dict (ps : List (String × PyValue))

/-- Join a list of strings with a separator, as the Python `sep.join`. -/
def joinSep (sep : String) : List String → String
  | [] => ""
  | [x] => x
  | x :: y :: xs => x ++ sep ++ joinSep sep (y :: xs)

mutual

/-- the Python `repr` on `PyValue` (used inside `str` of containers):
strings are quoted with single quotes, `None`/`True`/`False` keep their
Python spelling, lists and dicts recurse with `", "` separators. -/
def pyRepr : PyValue → String
  | .null => "None"
  | .bool true => "True"
  | .bool false => "False"
  | .int n => toString n
  | .str s => "\x27" ++ s ++ "\x27"
  | .list xs => "[" ++ pyReprJoin xs ++ "]"
  | .dict ps => "\x7b" ++ pyReprPairs ps ++ "\x7d"

/-- Helper of `pyRepr`: comma-joined reprs of list elements. -/
def pyReprJoin : List PyValue → String
  | [] => ""
  | [x] => pyRepr x
  | x :: y :: xs => pyRepr x ++ ", " ++ pyReprJoin (y :: xs)

/-- Helper of `pyRepr`: comma-joined `key: value` reprs of dict items. -/
def pyReprPairs : List (String × PyValue) → String
  | [] => ""
  | [p] => "\x27" ++ p.1 ++ "\x27: " ++ pyRepr p.2
  | p :: q :: ps => "\x27" ++ p.1 ++ "\x27: " ++ pyRepr p.2 ++ ", " ++ pyReprPairs (q :: ps)

end

/-- the Python `str` on `PyValue`: identical to `repr` except that a
top-level string is returned unquoted. -/
def pyStr : PyValue → String
  | .str s => s
  | v => pyRepr v

/-- the Python `s.strip("-")`: remove leading and trailing `-` characters. -/
def stripDashes (s : String) : String :=
  ⟨((s.data.dropWhile (fun c => c = '-')).reverse.dropWhile (fun c => c = '-')).reverse⟩

/-- The character class deleted by `re.sub` in `get_task_key`:
the regular expression is exactly the set of brackets, parentheses, braces, comma, space, single quote and double quote. -/
def strippedChars : List Char := ['[', ']', '(', ')', '\x7b', '\x7d', ',', ' ', '\x27', '\"']

/-- Embeds the `re.sub` call of `utils.get_task_key`: delete every
occurrence of a character of `strippedChars`. -/
def removeStripped (s : String) : String :=
  ⟨s.data.filter (fun c => decide (¬ c ∈ strippedChars))⟩

/-- Embeds `utils.get_task_key`: join `str` of the positional arguments
with `-`, join the keyword items as `key-value` with `-` in the dict
iteration (insertion) order, concatenate `name-args-kwargs`, strip
leading/trailing `-`, then delete brackets, braces, parentheses, commas,
spaces and quote characters. -/
def get_task_key (name : String) (args : List PyValue)
    (kwargs : List (String × PyValue)) : String :=
  let argsStr := joinSep "-" (args.map pyStr)
  let kwargsStr := joinSep "-" (kwargs.map (fun p => p.1 ++ "-" ++ pyStr p.2))
  removeStripped (stripDashes (name ++ "-" ++ argsStr ++ "-" ++ kwargsStr))

/-! ### JSON parsing (`json.loads`)

`scheduler._model_to_entry` and the `before_validator` hook both call
`json.loads` on the stored `args`/`kwargs` strings and treat a
`JSONDecodeError` as a malformed row.  The library is external, so the
grammar is modelled from the JSON standard that `json.loads` implements:
optional whitespace, `null`/`true`/`false`, integers without leading
zeros, quoted strings with escapes, arrays and objects.  Non-integer
numbers are rejected by the model (unneeded by the claims). -/

/-- JSON insignificant whitespace characters. -/
def isJsonWs (c : Char) : Bool :=
  c = ' ' || c = '\t' || c = '\n' || c = '\r'

/-- Drop leading JSON whitespace. -/
def skipWs : List Char → List Char
  | [] => []
  | c :: cs => if isJsonWs c then skipWs cs else c :: cs

/-- Decode one hexadecimal digit. -/
def hexDigit (c : Char) : Option Nat :=
  if '0' ≤ c ∧ c ≤ '9' then some (c.toNat - 48)
  else if 'a' ≤ c ∧ c ≤ 'f' then some (c.toNat - 87)
  else if 'A' ≤ c ∧ c ≤ 'F' then some (c.toNat - 55)
  else none

/-- Parse the body of a JSON string after the opening quote, returning
the decoded characters and the input following the closing quote. -/
def parseJString : List Char → Option (List Char × List Char)
  | [] => none
  | '\"' :: rest => some ([], rest)
  | '\\' :: e :: rest =>
    match e with
    | '\"' => (parseJString rest).map (fun p => ('\"' :: p.1, p.2))
    | '\\' => (parseJString rest).map (fun p => ('\\' :: p.1, p.2))
    | '/' => (parseJString rest).map (fun p => ('/' :: p.1, p.2))
    | 'b' => (parseJString rest).map (fun p => ('\x08' :: p.1, p.2))
    | 'f' => (parseJString rest).map (fun p => ('\x0c' :: p.1, p.2))
    | 'n' => (parseJString rest).map (fun p => ('\n' :: p.1, p.2))
    | 'r' => (parseJString rest).map (fun p => ('\r' :: p.1, p.2))
    | 't' => (parseJString rest).map (fun p => ('\t' :: p.1, p.2))
    | 'u' =>
      match rest with
      | a :: b :: c :: d :: rest2 =>
        match hexDigit a, hexDigit b, hexDigit c, hexDigit d with
        | some ha, some hb, some hc, some hd =>
          (parseJString rest2).map
            (fun p => (Char.ofNat (((ha * 16 + hb) * 16 + hc) * 16 + hd) :: p.1, p.2))
        | _, _, _, _ => none
      | _ => none
    | _ => none
  | c :: rest =>
    if c.toNat < 32 then none
    else (parseJString rest).map (fun p => (c :: p.1, p.2))

/-- Digits-to-number accumulator. -/
def digitsToNat (ds : List Char) : Nat :=
  ds.foldl (fun acc c => acc * 10 + (c.toNat - 48)) 0

/-- Parse a JSON integer (sign, no leading zeros, no fraction or
exponent — the model rejects non-integer numbers). -/
def parseJInt (cs : List Char) : Option (PyValue × List Char) :=
  let signed := match cs with
    | '-' :: r => (true, r)
    | _ => (false, cs)
  let ds := signed.2.takeWhile (fun c => c.isDigit)
  let rest := signed.2.dropWhile (fun c => c.isDigit)
  if ds = [] then none
  else if 1 < ds.length ∧ ds.head? = some '0' then none
  else
    match rest with
    | '.' :: _ => none
    | 'e' :: _ => none
    | 'E' :: _ => none
    | _ =>
      let n : Int := digitsToNat ds
      some (.int (if signed.1 then -n else n), rest)

mutual

/-- Parse one JSON value (fuelled recursion; the fuel is an upper bound
on the nesting so `jsonLoads` passes the input length plus one). -/
def parseJValue : Nat → List Char → Option (PyValue × List Char)
  | 0, _ => none
  | fuel + 1, cs =>
    match skipWs cs with
    | 'n' :: 'u' :: 'l' :: 'l' :: rest => some (.null, rest)
    | 't' :: 'r' :: 'u' :: 'e' :: rest => some (.bool true, rest)
    | 'f' :: 'a' :: 'l' :: 's' :: 'e' :: rest => some (.bool false, rest)
    | '\"' :: rest => (parseJString rest).map (fun p => (.str ⟨p.1⟩, p.2))
    | '[' :: rest =>
      (match skipWs rest with
       | ']' :: rest2 => some (.list [], rest2)
       | other => (parseJElems fuel other).map (fun p => (.list p.1, p.2)))
    | '\x7b' :: rest =>
      (match skipWs rest with
       | '\x7d' :: rest2 => some (.dict [], rest2)
       | other => (parseJMembers fuel other).map (fun p => (.dict p.1, p.2)))
    | other => parseJInt other

/-- Parse the comma-separated elements of a non-empty JSON array,
consuming the closing bracket. -/
def parseJElems : Nat → List Char → Option (List PyValue × List Char)
  | 0, _ => none
  | fuel + 1, cs =>
    match parseJValue fuel cs with
    | none => none
    | some (v, rest) =>
      match skipWs rest with
      | ',' :: rest2 => (parseJElems fuel rest2).map (fun p => (v :: p.1, p.2))
      | ']' :: rest2 => some ([v], rest2)
      | _ => none

/-- Parse the comma-separated members of a non-empty JSON object,
consuming the closing brace. -/
def parseJMembers : Nat → List Char → Option (List (String × PyValue) × List Char)
  | 0, _ => none
  | fuel + 1, cs =>
    match skipWs cs with
    | '\"' :: rest =>
      (match parseJString rest with
       | none => none
       | some (key, rest2) =>
         match skipWs rest2 with
         | ':' :: rest3 =>
           (match parseJValue fuel rest3 with
            | none => none
            | some (v, rest4) =>
              match skipWs rest4 with
              | ',' :: rest5 => (parseJMembers fuel rest5).map (fun p => ((⟨key⟩, v) :: p.1, p.2))
              | '\x7d' :: rest5 => some ([(⟨key⟩, v)], rest5)
              | _ => none)
         | _ => none)
    | _ => none

end

/-- Embeds the Python `json.loads`: parse one value and require that only
whitespace follows; any other input raises `JSONDecodeError`, modelled
as `none`. -/
def jsonLoads (s : String) : Option PyValue :=
  match parseJValue (s.length + 1) s.data with
  | some (v, rest) => if skipWs rest = [] then some v else none
  | none => none

/-! ### Crontab parsing

Both `before_validator` and `_model_to_entry` split the stored schedule
string into five whitespace-separated fields and hand them to the celery
`crontab`, whose constructor raises when a field fails to parse.
Modelled from the spec: each field accepts `*`, single values, lists, or
ranges per standard crontab syntax (plus the `/step` suffix that the
repository column documentation uses, e.g. `*/2 * * * *`); field
value ranges are minute 0-59, hour 0-23, day-of-month 1-31, month 1-12,
day-of-week 0-7.  (Celery additionally accepts month/weekday names,
which the model omits.) -/

/-- Parse a nonempty all-digit token. -/
def parseNatDigits (s : String) : Option Nat :=
  if s ≠ "" ∧ s.data.all (fun c => c.isDigit) then some (digitsToNat s.data) else none

/-- Split a character list at every occurrence of `sep`, keeping empty
pieces, as `str.split(sep)` does for a one-character separator. -/
def splitCharAux (sep : Char) : List Char → List Char → List String
  | [], cur => [⟨cur.reverse⟩]
  | c :: cs, cur =>
    if c = sep then ⟨cur.reverse⟩ :: splitCharAux sep cs []
    else splitCharAux sep cs (c :: cur)

/-- Split a string at every occurrence of the separator character. -/
def splitOnChar (sep : Char) (s : String) : List String :=
  splitCharAux sep s.data []

/-- One comma-part of a crontab field without its step suffix:
`*`, a single value in range, or a range `a-b` within range. -/
def cronBaseOk (lo hi : Nat) (base : String) : Bool :=
  if base = "*" then true
  else
    match splitOnChar '-' base with
    | [x] =>
      match parseNatDigits x with
      | some n => decide (lo ≤ n) && decide (n ≤ hi)
      | none => false
    | [a, b] =>
      match parseNatDigits a, parseNatDigits b with
      | some n, some m => decide (lo ≤ n) && decide (n ≤ m) && decide (m ≤ hi)
      | _, _ => false
    | _ => false

/-- One comma-part of a crontab field, with an optional `/step`. -/
def cronPartOk (lo hi : Nat) (part : String) : Bool :=
  match splitOnChar '/' part with
  | [base] => cronBaseOk lo hi base
  | [base, step] =>
    (match parseNatDigits step with
     | some n => decide (0 < n)
     | none => false) && cronBaseOk lo hi base
  | _ => false

/-- Whole crontab field: a nonempty comma-separated list of parts. -/
def cronFieldOk (lo hi : Nat) (s : String) : Bool :=
  (splitOnChar ',' s).all (cronPartOk lo hi)

/-- Validity of the five crontab fields, in the keyword order the celery
`crontab(minute=…, hour=…, day_of_week=…, day_of_month=…,
month_of_year=…)` receives them. -/
def crontabOk (minute hour day_of_week day_of_month month_of_year : String) : Bool :=
  cronFieldOk 0 59 minute && cronFieldOk 0 23 hour && cronFieldOk 0 7 day_of_week &&
    cronFieldOk 1 31 day_of_month && cronFieldOk 1 12 month_of_year

/-- Helper of `pySplit`: accumulate the current word and cut at
whitespace, discarding empty pieces. -/
def splitWsAux : List Char → List Char → List String
  | [], cur => if cur = [] then [] else [⟨cur.reverse⟩]
  | c :: cs, cur =>
    if isJsonWs c then
      if cur = [] then splitWsAux cs []
      else ⟨cur.reverse⟩ :: splitWsAux cs []
    else splitWsAux cs (c :: cur)

/-- the Python argument-free `str.split`: split on whitespace runs and
drop empty pieces. -/
def pySplit (s : String) : List String :=
  splitWsAux s.data []

/-! ### Schedule rows and entries -/

/-- One row of the `celery_tasks_schedule` table (the scheduling-relevant
columns of `CeleryTasksScheduleModel`; the same shape serves as the
`CeleryTasksScheduleDbSchema` payload handed to `bulk_insert`). -/
structure ScheduleRow where
  task : String
  args : String
  kwargs : String
  schedule : String
  enabled : Bool
  task_key : String
deriving DecidableEq

/-- The five original crontab fields kept by a built schedule entry. -/
structure CrontabSpec where
  minute : String
  hour : String
  day_of_month : String
  month_of_year : String
  day_of_week : String

/-- An in-memory `ScheduleEntry` as built by `_model_to_entry` and
`Scheduler._maybe_entry`: name (the row field `task_key`), task, parsed
args/kwargs, and the crontab schedule.  `_maybe_entry` performs no task
registry lookup. -/
structure BeatEntry where
  name : String
  task : String
  args : PyValue
  kwargs : PyValue
  schedule : CrontabSpec

/-- Result discriminator for `Except` used below. -/
def exceptOk : Except String BeatEntry → Bool
  | .ok _ => true
  | .error _ => false

/-- Embeds `DatabaseScheduler._model_to_entry`: `json.loads` the args and
kwargs, split the schedule string into exactly five fields, build the
celery `crontab`, and wrap everything into an entry keyed by the row field
`task_key`.  Each failure is the exception the Python code raises there
(`JSONDecodeError`, unpacking `ValueError`, crontab parse error). -/
def model_to_entry (m : ScheduleRow) : Except String BeatEntry :=
  match jsonLoads m.args with
  | none => .error ("invalid args payload: " ++ m.args)
  | some args =>
    match jsonLoads m.kwargs with
    | none => .error ("invalid kwargs payload: " ++ m.kwargs)
    | some kwargs =>
      match pySplit m.schedule with
      | [minute, hour, day_of_month, month_of_year, day_of_week] =>
        if crontabOk minute hour day_of_week day_of_month month_of_year then
          .ok ⟨m.task_key, m.task, args, kwargs,
            ⟨minute, hour, day_of_month, month_of_year, day_of_week⟩⟩
        else .error ("invalid schedule: " ++ m.schedule)
      | _ => .error ("wrong number of schedule fields: " ++ m.schedule)

/-- Python dict assignment `entries[key] = e` on an insertion-ordered
association list: overwrite an existing binding in place, else append. -/
def dictInsert : List (String × BeatEntry) → String → BeatEntry → List (String × BeatEntry)
  | [], k, e => [(k, e)]
  | (k', e') :: rest, k, e =>
    if k' = k then (k, e) :: rest else (k', e') :: dictInsert rest k e

/-- The `for row in rows: try … except` loop of `_get_enabled_tasks`:
successful conversions are stored under `row.task_key`, each failure
appends one logged error message. -/
def getTasksLoop : List ScheduleRow → List (String × BeatEntry) → List String →
    List (String × BeatEntry) × List String
  | [], acc, errs => (acc, errs)
  | r :: rs, acc, errs =>
    match model_to_entry r with
    | .ok e => getTasksLoop rs (dictInsert acc r.task_key e) errs
    | .error msg => getTasksLoop rs acc (errs ++ [msg])

/-- Embeds `DatabaseScheduler._get_enabled_tasks` together with the
store call it makes (`select_enabled_entries`, which filters on the
`enabled` column): rebuild the key→entry map from the enabled rows,
logging (not raising) per-row failures.  Totality of this function is
the "never raises" half of the reload fault-isolation policy. -/
def get_enabled_tasks (rows : List ScheduleRow) : List (String × BeatEntry) × List String :=
  getTasksLoop (rows.filter (fun r => r.enabled)) [] []

/-! ### The sync policy (`DatabaseScheduler._need_update`)

Wall-clock instants are modelled as integer seconds; `now % 60` is
`datetime.now().second` and five minutes are 300 seconds. -/

/-- `MAX_SYNC_SCHEDULE_INTERVAL` (minutes) from `scheduler.py`. -/
def MAX_SYNC_SCHEDULE_INTERVAL : Int := 5

/-- Embeds `DatabaseScheduler._need_update`.  `maxInterval` is
`self.max_interval`, `lastUpdatedAt` is the in-process
`self._last_updated_at`, `metaLastUpdatedAt` is the stored change clock
returned by `ModelMeta.get_last_updated_at()`, `now` is
`datetime.now(tz=UTC)` in seconds. -/
def need_update (maxInterval : Int) (lastUpdatedAt : Option Int)
    (metaLastUpdatedAt : Int) (now : Int) : Bool :=
  if maxInterval < 30 ∧ ((0 ≤ now % 60 ∧ now % 60 < 20) ∨ 50 < now % 60) then
    false
  else
    let syncThreshold := now - MAX_SYNC_SCHEDULE_INTERVAL * 60
    match lastUpdatedAt with
    | none => true
    | some t => decide (t < syncThreshold) || decide (t < metaLastUpdatedAt)

/-! ### Bulk insert of schedule rows

`CeleryTasksScheduleModel.bulk_insert` selects, inside one transaction,
the payload entries whose `task_key` is not yet stored
(`missing_entries = entries_to_insert - existing_entries`) and hands all
of them to a single multi-row INSERT.  The `task_key` column is declared
`unique=True`, so the INSERT itself fails (and the transaction changes
nothing) when the selected rows do not have pairwise distinct keys. -/

/-- The rows `bulk_insert` passes to the INSERT statement:
`d.task_key ∈ missing_entries` is equivalent to
`d.task_key ∉ existing_entries`. -/
def bulkInsertSelected (existingKeys : List String) (data : List ScheduleRow) :
    List ScheduleRow :=
  data.filter (fun d => decide (¬ d.task_key ∈ existingKeys))

/-- Embeds `CeleryTasksScheduleModel.bulk_insert` acting on the stored
table: on success the selected rows are appended, on a unique-key
violation the transaction rolls back and the error propagates. -/
def bulk_insert (stored : List ScheduleRow) (data : List ScheduleRow) :
    Except String (List ScheduleRow) :=
  let selected := bulkInsertSelected (stored.map (fun r => r.task_key)) data
  if ((stored ++ selected).map (fun r => r.task_key)).Nodup then
    .ok (stored ++ selected)
  else
    .error "UNIQUE constraint failed: celery_tasks_schedule.task_key"

/-! ### Row validation (`before_validator`)

The `before_insert` and `before_update` ORM event handlers both call
`before_validator`.  The live task registry (`celery_app.tasks`) and the
per-task `__header__` signature check are external collaborators, passed
in as parameters: `registry` is the set of registered task names,
`hasHeader` tells whether the task object has a `__header__` attribute
(without it the argument check is skipped with a debug message), and
`checkArguments` is the signature check, returning `false` when the Python
`check_arguments(*args, **kwargs)` would raise. -/

/-- Python iteration over the json-loaded `args` value, as both
`check_arguments(*(args or ()))` and `"-".join(map(str, args))` perform
it: a list yields its elements, a string its characters, a dict its
keys; numbers, booleans and `None` are not iterable (`TypeError`). -/
def pyIterate : PyValue → Option (List PyValue)
  | .list xs => some xs
  | .str s => some (s.data.map (fun c => .str ⟨[c]⟩))
  | .dict ps => some (ps.map (fun p => .str p.1))
  | _ => none

/-- the Python `kwargs.items()`: only a dict has it (`AttributeError`
otherwise). -/
def pyItems : PyValue → Option (List (String × PyValue))
  | .dict ps => some ps
  | _ => none

/-- Embeds `before_validator` from `models/celery_tasks_schedule.py`:
reject an unregistered task, unparsable args/kwargs JSON, a failing
argument-signature check, or an invalid five-field crontab; on success
return the row with `task_key` recomputed as
`get_task_key(target.task, args, kwargs)` (any caller-supplied value is
overwritten).  A non-iterable args value or a kwargs value that is not
an object makes the Python code raise `TypeError`/`AttributeError` at
the splat or `.items()` call, likewise rejecting the write. -/
def before_validator (registry : List String) (hasHeader : String → Bool)
    (checkArguments : String → List PyValue → List (String × PyValue) → Bool)
    (target : ScheduleRow) : Except String ScheduleRow :=
  if ¬ target.task ∈ registry then
    .error ("Task \x27" ++ target.task ++ "\x27 does not exist")
  else
    match jsonLoads target.args with
    | none => .error "Invalid format for task positional arguments"
    | some argsVal =>
      match jsonLoads target.kwargs with
      | none => .error "Invalid format for task keyword arguments"
      | some kwargsVal =>
        match pyIterate argsVal, pyItems kwargsVal with
        | some args, some kwargs =>
          if hasHeader target.task ∧ ¬ checkArguments target.task args kwargs then
            .error "check_arguments raised"
          else
            match pySplit target.schedule with
            | [minute, hour, day_of_month, month_of_year, day_of_week] =>
              if crontabOk minute hour day_of_week day_of_month month_of_year then
                .ok { target with task_key := get_task_key target.task args kwargs }
              else .error ("Invalid schedule: " ++ target.schedule)
            | _ => .error ("Invalid schedule: " ++ target.schedule)
        | _, _ => .error "args/kwargs payload has the wrong type"

/-! ### The change clock (`celery_tasks_schedule_meta`)

`after_insert_handler`, `after_update_handler` and
`after_delete_handler` each call
`CeleryTasksScheduleMetaModel.update_last_updated_at`, which opens its
own session (`db_sessionmaker` calls `engine.connect()` on a
`NullPool` engine, i.e. a fresh connection) and its own `session.begin()`
transaction, rather than writing through the `connection` argument the
event gives it.  An ORM mutation of a schedule row is therefore a
sequence of two transactions: the calling flush transaction carrying
the row write, then the clock-bump transaction. -/

/-- A single database write. -/
inductive DbWrite where
  | rowInsert (r : ScheduleRow)
  | rowUpdate (oldRow newRow : ScheduleRow)
  | rowDelete (r : ScheduleRow)
  | clockBump (t : Int)
deriving DecidableEq

/-- Observable database state: the schedule table plus the single
`celery_tasks_schedule_meta` row. -/
structure DbState where
  rows : List ScheduleRow
  metaLastUpdatedAt : Int

/-- Embeds `CeleryTasksScheduleMetaModel.update_last_updated_at`: one
transaction of its own containing the single clock write
`last_updated_at = now`. -/
def update_last_updated_at (now : Int) : List DbWrite :=
  [DbWrite.clockBump now]

/-- Transactions performed by an ORM insert of a schedule row at time
`now`: the flush writes the row, then `after_insert_handler` runs
`update_last_updated_at` in a separate transaction. -/
def ormInsertTransactions (r : ScheduleRow) (now : Int) : List (List DbWrite) :=
  [[DbWrite.rowInsert r], update_last_updated_at now]

/-- Transactions performed by an ORM update of a schedule row. -/
def ormUpdateTransactions (oldRow newRow : ScheduleRow) (now : Int) : List (List DbWrite) :=
  [[DbWrite.rowUpdate oldRow newRow], update_last_updated_at now]

/-- Transactions performed by an ORM delete of a schedule row. -/
def ormDeleteTransactions (r : ScheduleRow) (now : Int) : List (List DbWrite) :=
  [[DbWrite.rowDelete r], update_last_updated_at now]

/-- Effect of one write on the database state. -/
def applyWrite (s : DbState) : DbWrite → DbState
  | .rowInsert r => { s with rows := s.rows ++ [r] }
  | .rowUpdate oldRow newRow =>
    { s with rows := s.rows.map (fun x => if x = oldRow then newRow else x) }
  | .rowDelete r => { s with rows := s.rows.filter (fun x => decide (x ≠ r)) }
  | .clockBump t => { s with metaLastUpdatedAt := t }

/-- Effect of a sequence of committed transactions. -/
def applyTransactions (s : DbState) (ts : List (List DbWrite)) : DbState :=
  ts.foldl (fun st t => t.foldl applyWrite st) s

/-- Whether a write touches the schedule table. -/
def isRowWrite : DbWrite → Bool
  | .clockBump _ => false
  | _ => true

/-- Whether a write bumps the change clock. -/
def isClockWrite : DbWrite → Bool
  | .clockBump _ => true
  | _ => false

/-- Whether some single transaction of the sequence contains both a
schedule-row write and a clock bump. -/
def bumpInSameTransaction (ts : List (List DbWrite)) : Bool :=
  ts.any (fun t => t.any isRowWrite && t.any isClockWrite)

/-! ### Schema bootstrap (`DatabaseScheduler._prepare_models`) -/

/-- `PREPARE_MODELS_MAX_RETRIES` from `scheduler.py`. -/
def PREPARE_MODELS_MAX_RETRIES : Nat := 10

/-- Backoff before retry number `retries`, as the celery
`get_exponential_backoff_interval(10, retries, 1000, True)` computes it
before jitter: `min(maximum, factor * 2 ** retries)` with factor 10 ms
and cap 1000 ms (modelled from the celery documented behaviour; the full
jitter then picks a value in `[0, countdown]`, supplied here by the
`jitter` oracle). -/
def backoffRaw (retries : Nat) : Nat :=
  min 1000 (10 * 2 ^ retries)

/-- The `while True` retry loop of `_prepare_models`.  `attemptFails k`
tells whether attempt number `k` of `metadata.create_all(engine)` raises
`DatabaseError`; `budget` is `PREPARE_MODELS_MAX_RETRIES - retries`, so
the guard in the source `retries < PREPARE_MODELS_MAX_RETRIES` is
`budget ≠ 0`.  Returns `ok (attempts, sleeps)` on success and
`error (attempts, sleeps)` when the last `DatabaseError` is
re-raised, where `sleeps` are the jittered backoff millisecond amounts
slept between attempts. -/
def prepareModelsLoop (attemptFails : Nat → Bool) (jitter : Nat → Nat) :
    Nat → Nat → List Nat → Except (Nat × List Nat) (Nat × List Nat)
  | retries, budget, sleeps =>
    if attemptFails retries then
      match budget with
      | 0 => .error (retries + 1, sleeps)
      | b + 1 =>
        prepareModelsLoop attemptFails jitter (retries + 1) b
          (sleeps ++ [jitter (backoffRaw retries)])
    else .ok (retries + 1, sleeps)

/-- Embeds `DatabaseScheduler._prepare_models` (the retry loop around
schema creation; the trailing `init_last_updated_at` call is not part of
any claim). -/
def prepare_models (attemptFails : Nat → Bool) (jitter : Nat → Nat) :
    Except (Nat × List Nat) (Nat × List Nat) :=
  prepareModelsLoop attemptFails jitter 0 PREPARE_MODELS_MAX_RETRIES []

/-! ### Concrete instances used by witnesses and counterexamples -/

/-- A concrete well-formed schedule row used by concrete instances. -/
def sampleRow : ScheduleRow :=
  ⟨"task_a", "[]", "\x7b\x7d", "* * * * *", true, "task_a"⟩

/-- The character class `[0-9a-zA-Z_.-]` named by the claim. -/
def allowedKeyChar (c : Char) : Bool :=
  ('0' ≤ c && c ≤ '9') || ('a' ≤ c && c ≤ 'z') || ('A' ≤ c && c ≤ 'Z') ||
    c = '_' || c = '.' || c = '-'

/-- Concrete reload input for the C4 witness: four well-formed rows and
one row with an out-of-range crontab minute field. -/
def c4rows : List ScheduleRow :=
  [⟨"t1", "[]", "\x7b\x7d", "* * * * *", true, "k1"⟩,
    ⟨"t2", "[1]", "\x7b\x7d", "0 3 * * 1", true, "k2"⟩,
    ⟨"t3", "[]", "\x7b\"a\": 1\x7d", "*/2 * * * *", true, "k3"⟩,
    ⟨"t4", "[]", "\x7b\x7d", "61 * * * *", true, "kbad"⟩,
    ⟨"t5", "[\"x\"]", "\x7b\x7d", "1-5 2 3 4 5", true, "k5"⟩]

/-- Schedule row with a given task and key, for concrete instances. -/
def rowK (t k : String) : ScheduleRow :=
  ⟨t, "[]", "\x7b\x7d", "* * * * *", true, k⟩

/-- Stored table for the C5 witness. -/
def c5stored : List ScheduleRow := [rowK "t1" "a", rowK "t2" "b"]

/-- Batch of five entries, two of which collide with stored keys. -/
def c5data : List ScheduleRow :=
  [rowK "t1" "a", rowK "t2" "b", rowK "t3" "c", rowK "t4" "d", rowK "t5" "e"]

/-- A well-formed row whose task `ghost` is not registered. -/
def ghostRow : ScheduleRow := ⟨"ghost", "[]", "\x7b\x7d", "* * * * *", true, "ghost"⟩

/-- The entry the reload builds from `ghostRow`. -/
def ghostEntry : BeatEntry :=
  ⟨"ghost", "ghost", .list [], .dict [], ⟨"*", "*", "*", "*", "*"⟩⟩

/-- Concrete row for the C10 witness, carrying the wrong caller-supplied
key `WRONG`. -/
def c10row : ScheduleRow :=
  ⟨"real_task", "[1, 2]", "\x7b\"a\": true\x7d", "*/2 * * * *", true, "WRONG"⟩

/-- The row the validator returns for `c10row`: identical except that
`task_key` has been recomputed. -/
def c10out : ScheduleRow :=
  ⟨"real_task", "[1, 2]", "\x7b\"a\": true\x7d", "*/2 * * * *", true,
    "real_task-1-2-a-True"⟩

/-! ### Sync-policy claims -/

/-- Helper: `need_update` as a propositional normal form. -/
theorem need_update_true_iff (mi : Int) (l : Option Int) (meta now : Int) :
    need_update mi l meta now = true ↔
      (¬ (mi < 30 ∧ (now % 60 < 20 ∨ 50 < now % 60)) ∧
        (l = none ∨ ∃ t, l = some t ∧ (300 < now - t ∨ t < meta))) := by
  have h0 : (0 : Int) ≤ now % 60 := Int.emod_nonneg _ (by norm_num)
  unfold need_update
  by_cases hs : mi < 30 ∧ ((0 ≤ now % 60 ∧ now % 60 < 20) ∨ 50 < now % 60)
  · rw [if_pos hs]
    simp only [Bool.false_eq_true, false_iff]
    intro hc
    exact hc.1 ⟨hs.1, by omega⟩
  · rw [if_neg hs]
    cases l with
    | none =>
      constructor
      · intro _
        exact ⟨fun hc => hs ⟨hc.1, by omega⟩, Or.inl rfl⟩
      · intro _
        rfl
    | some t =>
      simp only [MAX_SYNC_SCHEDULE_INTERVAL, Bool.or_eq_true, decide_eq_true_eq,
        reduceCtorEq, Option.some.injEq, false_or]
      constructor
      · intro hc
        refine ⟨fun hq => hs ⟨hq.1, by omega⟩, t, rfl, by omega⟩
      · rintro ⟨-, t', ht', hd⟩
        cases ht'
        omega

/-- C1: the refresh-need check returns true exactly when, outside the
quiet-window suppression, no refresh has ever occurred, the last refresh
is more than five minutes (300 s) old, or the last refresh is older than
the stored change clock; consequently, once the last refresh is at or
after the change clock and within the five-minute threshold, no refresh
occurs until the clock advances or the threshold elapses. -/
theorem need_update_characterization (mi : Int) (l : Option Int) (meta now : Int) :
    (need_update mi l meta now = true ↔
      (¬ (mi < 30 ∧ (now % 60 < 20 ∨ 50 < now % 60)) ∧
        (l = none ∨ ∃ t, l = some t ∧ (300 < now - t ∨ t < meta)))) ∧
    (∀ t, l = some t → meta ≤ t → now - t ≤ 300 →
      need_update mi l meta now = false) := by
  refine ⟨need_update_true_iff mi l meta now, fun t ht hmeta hfresh => ?_⟩
  by_contra hne
  have htrue : need_update mi l meta now = true := by
    cases hcase : need_update mi l meta now
    · exact absurd hcase hne
    · rfl
  rcases (need_update_true_iff mi l meta now).1 htrue with ⟨-, hc⟩
  rcases hc with hnone | ⟨t', ht', hd⟩
  · rw [ht] at hnone; cases hnone
  · rw [ht] at ht'
    cases ht'
    omega

/-- Witness for C1 at a concrete input: a last refresh at or after the
change clock and within the threshold yields no refresh. -/
theorem need_update_characterization_witness :
    need_update 60 (some 1000) 900 1225 = false :=
  (need_update_characterization 60 (some 1000) 900 1225).2 1000 rfl
    (by decide) (by decide)

/-- C2: with a polling interval below 30 seconds, a tick whose
wall-clock second lies in [0,20) or (50,60) never triggers a refresh,
whatever the change clock and threshold say; a tick at second 25 is
governed by the staleness rules as usual. -/
theorem need_update_quiet_window (mi : Int) (l : Option Int) (meta now : Int) :
    (mi < 30 → (now % 60 < 20 ∨ 50 < now % 60) →
      need_update mi l meta now = false) ∧
    (now % 60 = 25 →
      (need_update mi l meta now = true ↔
        (l = none ∨ ∃ t, l = some t ∧ (300 < now - t ∨ t < meta)))) := by
  have h0 : (0 : Int) ≤ now % 60 := Int.emod_nonneg _ (by norm_num)
  constructor
  · intro hmi hsec
    unfold need_update
    rw [if_pos ⟨hmi, by omega⟩]
  · intro h25
    rw [need_update_true_iff]
    constructor
    · exact fun h => h.2
    · intro h
      exact ⟨by omega, h⟩

/-- Witness for C2 at concrete inputs: with `max_interval = 10`, a tick
at second 55 does not refresh despite a stale clock. -/
theorem need_update_quiet_window_witness :
    need_update 10 (some 0) 1000 55 = false :=
  (need_update_quiet_window 10 (some 0) 1000 55).1 (by decide) (by decide)

/-! ### Change-clock claims -/

/-- C3 counterexample: for a concrete row mutated at time 0, no single
transaction of the ORM insert, update, or delete contains both the
schedule-row write and the clock bump — `update_last_updated_at` runs in
a session of its own, so the bump is not in the same transaction as the
data change. -/
theorem clock_bump_not_same_transaction :
    bumpInSameTransaction (ormInsertTransactions sampleRow 0) = false ∧
    bumpInSameTransaction (ormUpdateTransactions sampleRow sampleRow 0) = false ∧
    bumpInSameTransaction (ormDeleteTransactions sampleRow 0) = false :=
  ⟨rfl, rfl, rfl⟩

/-- C3 (amended): every ORM insert, update, or delete of a schedule row
updates the change-clock timestamp to the mutation time as a side
effect, executed in a separate transaction of its own immediately after
the data write; once the transactions of the operation have committed, the
observed clock equals the mutation time (and the row write of the insert is
also reflected). -/
theorem clock_bump_on_every_mutation (r oldRow newRow : ScheduleRow) (now : Int)
    (s : DbState) :
    ((ormInsertTransactions r now).any (fun t => t.any isClockWrite) = true ∧
      (applyTransactions s (ormInsertTransactions r now)).metaLastUpdatedAt = now ∧
      (applyTransactions s (ormInsertTransactions r now)).rows = s.rows ++ [r]) ∧
    ((ormUpdateTransactions oldRow newRow now).any (fun t => t.any isClockWrite) = true ∧
      (applyTransactions s (ormUpdateTransactions oldRow newRow now)).metaLastUpdatedAt = now) ∧
    ((ormDeleteTransactions r now).any (fun t => t.any isClockWrite) = true ∧
      (applyTransactions s (ormDeleteTransactions r now)).metaLastUpdatedAt = now) :=
  ⟨⟨rfl, rfl, rfl⟩, ⟨rfl, rfl⟩, ⟨rfl, rfl⟩⟩

/-! ### Entry-key claims -/

/-- C6 (amended): the key returned by `get_task_key` never contains a
bracket, brace, parenthesis, comma, space, or quote character — exactly
the characters the `re.sub` call deletes.  (Other characters outside
`[0-9a-zA-Z_.-]`, such as `@`, are preserved; see the counterexample.) -/
theorem task_key_no_stripped_chars (name : String) (args : List PyValue)
    (kwargs : List (String × PyValue)) :
    ∀ c ∈ (get_task_key name args kwargs).data, ¬ c ∈ strippedChars := by
  intro c hc
  unfold get_task_key removeStripped at hc
  exact of_decide_eq_true (List.mem_filter.mp hc).2

/-- Witness for C6 at a concrete input. -/
theorem task_key_no_stripped_chars_witness :
    'a' ∈ (get_task_key "ab" [] []).data ∧ ¬ 'a' ∈ strippedChars :=
  ⟨by decide, task_key_no_stripped_chars "ab" [] [] 'a' (by decide)⟩

/-- C6 counterexample: the key of a task named `a@b` keeps the `@`,
which lies outside `[0-9a-zA-Z_.-]` — the code deletes only the specific
characters of `strippedChars`, it does not restrict the output to the
allowed class. -/
theorem task_key_charset_cex :
    '@' ∈ (get_task_key "a@b" [] []).data ∧ allowedKeyChar '@' = false :=
  ⟨by decide, by decide⟩

/-- C7 (amended): the key is a pure function of the task name, the
string canonicalization of the args, and the ordered string
canonicalization of the kwargs items: inputs whose values canonicalize
to the same strings in the same order yield the same key (for example
the integer `1` and the string `"1"` are interchangeable).  The kwargs'
insertion order is part of the input (see the counterexample). -/
theorem task_key_canonicalization (name : String) (args1 args2 : List PyValue)
    (kwargs1 kwargs2 : List (String × PyValue))
    (hargs : args1.map pyStr = args2.map pyStr)
    (hkw : kwargs1.map (fun p => (p.1, pyStr p.2)) =
      kwargs2.map (fun p => (p.1, pyStr p.2))) :
    get_task_key name args1 kwargs1 = get_task_key name args2 kwargs2 := by
  have hjoin : ∀ (l : List (String × PyValue)),
      l.map (fun p => p.1 ++ "-" ++ pyStr p.2) =
        (l.map (fun p => (p.1, pyStr p.2))).map (fun q => q.1 ++ "-" ++ q.2) := by
    intro l
    rw [List.map_map]
    rfl
  unfold get_task_key
  rw [hargs, hjoin kwargs1, hjoin kwargs2, hkw]

/-- Witness for C7 at concrete inputs: `1` and `"1"` (and `2`/`"2"` in
kwargs) canonicalize identically, so the keys agree. -/
theorem task_key_canonicalization_witness :
    [PyValue.int 1].map pyStr = [PyValue.str "1"].map pyStr ∧
    [("k", PyValue.int 2)].map (fun p => (p.1, pyStr p.2)) =
      [("k", PyValue.str "2")].map (fun p => (p.1, pyStr p.2)) ∧
    get_task_key "t" [PyValue.int 1] [("k", PyValue.int 2)] =
      get_task_key "t" [PyValue.str "1"] [("k", PyValue.str "2")] :=
  ⟨by decide, by decide,
    task_key_canonicalization "t" [PyValue.int 1] [PyValue.str "1"]
      [("k", PyValue.int 2)] [("k", PyValue.str "2")] (by decide) (by decide)⟩

/-- C7 counterexample: two kwargs mappings holding the same key→value
pairs in different insertion order (a permutation of one another)
produce different keys — the join follows dict iteration order. -/
theorem task_key_order_cex :
    List.Perm [("a", PyValue.int 1), ("b", PyValue.int 2)]
      [("b", PyValue.int 2), ("a", PyValue.int 1)] ∧
    get_task_key "t" [] [("a", PyValue.int 1), ("b", PyValue.int 2)] ≠
      get_task_key "t" [] [("b", PyValue.int 2), ("a", PyValue.int 1)] :=
  ⟨List.Perm.swap _ _ _, by decide⟩

/-! ### Schema-bootstrap claims -/

/-- Helper: the retry loop succeeds at the first non-failing attempt and
returns the jittered backoffs slept so far. -/
theorem prepareModelsLoop_ok (af : Nat → Bool) (j : Nat → Nat) :
    ∀ (budget r k : Nat) (sleeps : List Nat),
      r + budget = PREPARE_MODELS_MAX_RETRIES →
      r ≤ k → k ≤ PREPARE_MODELS_MAX_RETRIES →
      (∀ i, r ≤ i → i < k → af i = true) → af k = false →
      prepareModelsLoop af j r budget sleeps =
        .ok (k + 1, sleeps ++ (List.range' r (k - r)).map (fun i => j (backoffRaw i))) := by
  intro budget
  induction budget with
  | zero =>
    intro r k sleeps hsum hrk hk10 hfail hok
    have hr : r = PREPARE_MODELS_MAX_RETRIES := by omega
    have hkr : k = r := by omega
    subst hkr
    rw [prepareModelsLoop, hok]
    simp
  | succ b ih =>
    intro r k sleeps hsum hrk hk10 hfail hok
    rcases Nat.eq_or_lt_of_le hrk with heq | hlt
    · subst heq
      rw [prepareModelsLoop, hok]
      simp
    · have hfr : af r = true := hfail r le_rfl hlt
      rw [prepareModelsLoop, hfr]
      rw [ih (r + 1) k (sleeps ++ [j (backoffRaw r)]) (by omega) hlt hk10
        (fun i hi hik => hfail i (by omega) hik) hok]
      obtain ⟨m, hm⟩ : ∃ m, k - r = m + 1 := ⟨k - r - 1, by omega⟩
      have hm2 : k - (r + 1) = m := by omega
      rw [hm, hm2, List.range'_succ]
      simp

/-- Helper: when every attempt fails, the loop re-raises after the last
retry, having slept once per retry. -/
theorem prepareModelsLoop_err (af : Nat → Bool) (j : Nat → Nat) :
    ∀ (budget r : Nat) (sleeps : List Nat),
      r + budget = PREPARE_MODELS_MAX_RETRIES →
      (∀ i, r ≤ i → i ≤ PREPARE_MODELS_MAX_RETRIES → af i = true) →
      prepareModelsLoop af j r budget sleeps =
        .error (PREPARE_MODELS_MAX_RETRIES + 1,
          sleeps ++ (List.range' r budget).map (fun i => j (backoffRaw i))) := by
  intro budget
  induction budget with
  | zero =>
    intro r sleeps hsum hfail
    have hr : r = PREPARE_MODELS_MAX_RETRIES := by omega
    rw [prepareModelsLoop, hfail r (by omega) (by omega)]
    subst hr
    simp
  | succ b ih =>
    intro r sleeps hsum hfail
    rw [prepareModelsLoop, hfail r (by omega) (by omega)]
    rw [ih (r + 1) (sleeps ++ [j (backoffRaw r)]) (by omega)
      (fun i hi hik => hfail i (by omega) hik)]
    rw [List.range'_succ]
    simp

/-- C9 (amended): `_prepare_models` retries schema creation on database
error with exponentially backed-off, jittered sleeps of
`min(1000, 10 * 2^retries)` milliseconds, making the initial attempt
plus up to `PREPARE_MODELS_MAX_RETRIES = 10` retries (hence at most 11
attempts in total, not 10); the first successful attempt stops the loop
immediately, and when every attempt has failed the final database error
propagates. -/
theorem prepare_models_retry (af : Nat → Bool) (j : Nat → Nat) :
    (∀ k, k ≤ PREPARE_MODELS_MAX_RETRIES → (∀ i, i < k → af i = true) →
      af k = false →
      prepare_models af j =
        .ok (k + 1, (List.range k).map (fun i => j (backoffRaw i)))) ∧
    ((∀ i, i ≤ PREPARE_MODELS_MAX_RETRIES → af i = true) →
      prepare_models af j =
        .error (PREPARE_MODELS_MAX_RETRIES + 1,
          (List.range PREPARE_MODELS_MAX_RETRIES).map (fun i => j (backoffRaw i)))) := by
  constructor
  · intro k hk hfail hok
    unfold prepare_models
    rw [prepareModelsLoop_ok af j PREPARE_MODELS_MAX_RETRIES 0 k [] (by omega)
      (Nat.zero_le k) hk (fun i _ hik => hfail i hik) hok]
    rw [List.range_eq_range']
    simp
  · intro hfail
    unfold prepare_models
    rw [prepareModelsLoop_err af j PREPARE_MODELS_MAX_RETRIES 0 []
      (by omega) (fun i _ hik => hfail i hik)]
    rw [List.range_eq_range']
    simp

/-- Witness for C9 at a concrete input: the first two attempts fail, the
third succeeds, so the loop stops after three attempts having slept the
first two backoffs (10 ms then 20 ms, identity jitter). -/
theorem prepare_models_retry_witness :
    prepare_models (fun k => decide (k < 2)) (fun n => n) = .ok (3, [10, 20]) := by
  have h := (prepare_models_retry (fun k => decide (k < 2)) (fun n => n)).1 2
    (by decide) (by decide) (by decide)
  simpa using h

/-- C9 counterexample: with every attempt failing, the code performs 11
attempts (the initial one plus 10 retries) before propagating the error,
not at most 10; the sleeps show the exponential backoff `10 * 2^r`
capped at 1000 ms. -/
theorem prepare_models_attempts_cex :
    prepare_models (fun _ => true) (fun n => n) =
      .error (11, [10, 20, 40, 80, 160, 320, 640, 1000, 1000, 1000]) ∧
    10 < 11 :=
  ⟨rfl, by decide⟩

/-! ### Reload fault-isolation claims -/

/-- Helper: inserting an unbound key into the entry dict appends it. -/
theorem dictInsert_not_mem (acc : List (String × BeatEntry)) (k : String) (e : BeatEntry)
    (h : ∀ p ∈ acc, p.1 ≠ k) : dictInsert acc k e = acc ++ [(k, e)] := by
  induction acc with
  | nil => rfl
  | cons p rest ih =>
    cases p with
    | mk k' e' =>
      rw [dictInsert, if_neg (h (k', e') (by simp)), ih (fun q hq => h q (by simp [hq]))]
      rfl

/-- Helper: with pairwise-distinct row keys none of which is bound in
the accumulator, the reload loop appends one map binding per convertible
row and one logged error per failing row. -/
theorem getTasksLoop_spec (rows : List ScheduleRow) :
    ∀ (acc : List (String × BeatEntry)) (errs : List String),
      (∀ r ∈ rows, ∀ p ∈ acc, p.1 ≠ r.task_key) →
      (rows.map (fun r => r.task_key)).Nodup →
      getTasksLoop rows acc errs =
        (acc ++ rows.filterMap (fun r =>
            match model_to_entry r with
            | .ok e => some (r.task_key, e)
            | .error _ => none),
          errs ++ rows.filterMap (fun r =>
            match model_to_entry r with
            | .ok _ => none
            | .error msg => some msg)) := by
  induction rows with
  | nil =>
    intro acc errs _ _
    simp [getTasksLoop]
  | cons r rs ih =>
    intro acc errs hdisj hnodup
    rw [List.map_cons, List.nodup_cons] at hnodup
    cases hre : model_to_entry r with
    | ok e =>
      rw [show getTasksLoop (r :: rs) acc errs
          = getTasksLoop rs (dictInsert acc r.task_key e) errs by rw [getTasksLoop, hre]]
      rw [dictInsert_not_mem acc r.task_key e (fun p hp => hdisj r (by simp) p hp)]
      rw [ih (acc ++ [(r.task_key, e)]) errs ?_ hnodup.2]
      · simp [List.filterMap_cons, hre]
      · intro r' hr' p hp
        rcases List.mem_append.mp hp with hacc | hsing
        · exact hdisj r' (by simp [hr']) p hacc
        · rcases List.mem_singleton.mp hsing with rfl
          intro hk
          apply hnodup.1
          rw [show r.task_key = r'.task_key from hk]
          exact List.mem_map_of_mem (fun x => x.task_key) hr'
    | error msg =>
      rw [show getTasksLoop (r :: rs) acc errs
          = getTasksLoop rs acc (errs ++ [msg]) by rw [getTasksLoop, hre]]
      rw [ih acc (errs ++ [msg]) (fun r' hr' p hp => hdisj r' (by simp [hr']) p hp)
        hnodup.2]
      simp [List.filterMap_cons, hre]

/-- Helper: the number of logged reload errors equals the number of
rows whose conversion fails. -/
theorem errors_length_eq (l : List ScheduleRow) :
    (l.filterMap (fun r =>
        match model_to_entry r with
        | .ok _ => none
        | .error msg => some msg)).length =
      (l.filter (fun r => ¬ exceptOk (model_to_entry r))).length := by
  induction l with
  | nil => rfl
  | cons r rs ih =>
    cases hre : model_to_entry r <;>
      simp [List.filterMap_cons, List.filter_cons, hre, exceptOk, ih]

/-- C4: during a reload of enabled rows with pairwise-distinct keys
(guaranteed by the unique `task_key` column), the rebuilt schedule map
holds exactly the entries derived from the rows that convert
successfully, in order, and one error is logged per malformed row
(unparsable crontab or invalid JSON payload); `get_enabled_tasks` is a
total function, so the reload never raises. -/
theorem get_enabled_tasks_fault_isolation (rows : List ScheduleRow)
    (hkeys : ((rows.filter (fun r => r.enabled)).map (fun r => r.task_key)).Nodup) :
    (get_enabled_tasks rows).1 =
      (rows.filter (fun r => r.enabled)).filterMap (fun r =>
        match model_to_entry r with
        | .ok e => some (r.task_key, e)
        | .error _ => none) ∧
    (get_enabled_tasks rows).2.length =
      ((rows.filter (fun r => r.enabled)).filter
        (fun r => ¬ exceptOk (model_to_entry r))).length := by
  unfold get_enabled_tasks
  rw [getTasksLoop_spec (rows.filter (fun r => r.enabled)) [] []
    (by simp) hkeys]
  exact ⟨by simp, by simpa using errors_length_eq (rows.filter (fun r => r.enabled))⟩

/-- Witness for C4 at a concrete input: of five enabled rows, the one
with crontab minute `61` is dropped with one logged error and the four
valid rows survive. -/
theorem get_enabled_tasks_fault_isolation_witness :
    ((c4rows.filter (fun r => r.enabled)).map (fun r => r.task_key)).Nodup ∧
    (get_enabled_tasks c4rows).1.map Prod.fst = ["k1", "k2", "k3", "k5"] ∧
    (get_enabled_tasks c4rows).2.length = 1 := by
  refine ⟨by decide, ?_, ?_⟩
  · rw [(get_enabled_tasks_fault_isolation c4rows (by decide)).1]
    rfl
  · rw [(get_enabled_tasks_fault_isolation c4rows (by decide)).2]
    rfl

/-! ### Bulk-insert claims -/

/-- C5 (amended): bulk insert appends exactly those batch entries whose
key is not already stored, leaving existing rows unchanged, and
re-running the same batch inserts nothing — provided the batch keys are
pairwise distinct.  (Two batch entries sharing an unstored key are both
selected — the code performs no intra-batch dedup — and the multi-row
INSERT then fails on the unique key constraint; see the
counterexample.) -/
theorem bulk_insert_dedup (stored data : List ScheduleRow)
    (hstored : (stored.map (fun r => r.task_key)).Nodup)
    (hdata : (data.map (fun r => r.task_key)).Nodup) :
    bulk_insert stored data =
      .ok (stored ++ data.filter (fun d =>
        decide (¬ d.task_key ∈ stored.map (fun r => r.task_key)))) ∧
    bulk_insert (stored ++ data.filter (fun d =>
        decide (¬ d.task_key ∈ stored.map (fun r => r.task_key)))) data =
      .ok (stored ++ data.filter (fun d =>
        decide (¬ d.task_key ∈ stored.map (fun r => r.task_key)))) := by
  set sel := data.filter (fun d =>
    decide (¬ d.task_key ∈ stored.map (fun r => r.task_key))) with hsel
  have hselsub : List.Sublist (sel.map (fun r => r.task_key))
      (data.map (fun r => r.task_key)) :=
    List.Sublist.map _ (List.filter_sublist data)
  have hselnodup : (sel.map (fun r => r.task_key)).Nodup :=
    List.Nodup.sublist hselsub hdata
  have hdisj : (stored.map (fun r => r.task_key)).Disjoint
      (sel.map (fun r => r.task_key)) := by
    intro a ha hb
    rcases List.mem_map.mp hb with ⟨d, hd, rfl⟩
    rw [hsel] at hd
    exact (of_decide_eq_true (List.mem_filter.mp hd).2) ha
  have hnodup : ((stored ++ sel).map (fun r => r.task_key)).Nodup := by
    rw [List.map_append, List.nodup_append]
    exact ⟨hstored, hselnodup, hdisj⟩
  constructor
  · simp only [bulk_insert, bulkInsertSelected]
    rw [← hsel, if_pos hnodup]
  · simp only [bulk_insert, bulkInsertSelected]
    have hempty : data.filter (fun d =>
        decide (¬ d.task_key ∈ (stored ++ sel).map (fun r => r.task_key))) = [] := by
      rw [List.filter_eq_nil_iff]
      intro d hd
      simp only [decide_eq_true_eq, not_not]
      rw [List.map_append]
      by_cases hmem : d.task_key ∈ stored.map (fun r => r.task_key)
      · exact List.mem_append.mpr (Or.inl hmem)
      · refine List.mem_append.mpr (Or.inr (List.mem_map.mpr ⟨d, ?_, rfl⟩))
        rw [hsel]
        exact List.mem_filter.mpr ⟨hd, decide_eq_true hmem⟩
    rw [hempty, List.append_nil, if_pos hnodup]

/-- Witness for C5 at a concrete input: of five batch entries, the two
whose keys are already stored are skipped, exactly three new rows are
appended, and re-running the same batch inserts nothing. -/
theorem bulk_insert_dedup_witness :
    (c5stored.map (fun r => r.task_key)).Nodup ∧
    (c5data.map (fun r => r.task_key)).Nodup ∧
    bulk_insert c5stored c5data =
      .ok (c5stored ++ [rowK "t3" "c", rowK "t4" "d", rowK "t5" "e"]) ∧
    (c5stored ++ [rowK "t3" "c", rowK "t4" "d", rowK "t5" "e"]).length
      = c5stored.length + 3 ∧
    bulk_insert (c5stored ++ [rowK "t3" "c", rowK "t4" "d", rowK "t5" "e"]) c5data =
      .ok (c5stored ++ [rowK "t3" "c", rowK "t4" "d", rowK "t5" "e"]) := by
  have h := bulk_insert_dedup c5stored c5data (by decide) (by decide)
  have hfil : c5data.filter (fun d =>
      decide (¬ d.task_key ∈ c5stored.map (fun r => r.task_key)))
      = [rowK "t3" "c", rowK "t4" "d", rowK "t5" "e"] := by decide
  refine ⟨by decide, by decide, ?_, by decide, ?_⟩
  · rw [← hfil]
    exact h.1
  · rw [← hfil]
    exact h.2

/-- C5 counterexample: two batch entries with the same unstored key
`"x"`: the set difference treats both as new, the multi-row INSERT
violates the unique `task_key` constraint and the whole insert fails —
the later entry is not "treated as a duplicate and not inserted". -/
theorem bulk_insert_intra_batch_cex :
    bulk_insert [] [rowK "t1" "x", rowK "t2" "x"] =
      .error "UNIQUE constraint failed: celery_tasks_schedule.task_key" ∧
    ¬ bulk_insert [] [rowK "t1" "x", rowK "t2" "x"] = .ok [rowK "t1" "x"] := by
  constructor
  · rfl
  · intro h
    rw [show bulk_insert [] [rowK "t1" "x", rowK "t2" "x"] =
      .error "UNIQUE constraint failed: celery_tasks_schedule.task_key" from rfl] at h
    exact Except.noConfusion h

/-! ### Unknown-task claims -/

/-- C8 (amended): a schedule row whose task is absent from the live
registry is rejected with an error by the write-time validator (the
write does not happen), but at reload time no registry check occurs: a
pre-existing well-formed row referencing an unknown task is converted
and included in the rebuilt schedule with no error logged, rather than
skipped. -/
theorem unknown_task_write_reject_reload_include
    (registry : List String) (hasHeader : String → Bool)
    (checkArguments : String → List PyValue → List (String × PyValue) → Bool)
    (row : ScheduleRow) (e : BeatEntry)
    (hreg : ¬ row.task ∈ registry) (hok : model_to_entry row = .ok e) :
    before_validator registry hasHeader checkArguments row =
      .error ("Task \x27" ++ row.task ++ "\x27 does not exist") ∧
    (get_enabled_tasks [{ row with enabled := true }]).1 = [(row.task_key, e)] ∧
    (get_enabled_tasks [{ row with enabled := true }]).2 = [] := by
  have hok' : model_to_entry { row with enabled := true } = .ok e := hok
  have hL : getTasksLoop [{ row with enabled := true }] [] []
      = ([(row.task_key, e)], []) := by
    simp only [getTasksLoop, hok', dictInsert]
  refine ⟨?_, ?_, ?_⟩
  · unfold before_validator
    rw [if_pos hreg]
  · show (getTasksLoop [{ row with enabled := true }] [] []).1 = [(row.task_key, e)]
    rw [hL]
  · show (getTasksLoop [{ row with enabled := true }] [] []).2 = []
    rw [hL]

/-- Witness for C8 at a concrete input: the registry holds only
`real_task`, yet the reload includes the `ghost` row. -/
theorem unknown_task_write_reject_reload_include_witness :
    ¬ "ghost" ∈ ["real_task"] ∧
    before_validator ["real_task"] (fun _ => true) (fun _ _ _ => true) ghostRow =
      .error "Task \x27ghost\x27 does not exist" ∧
    (get_enabled_tasks [ghostRow]).1 = [("ghost", ghostEntry)] ∧
    (get_enabled_tasks [ghostRow]).2 = [] := by
  have h := unknown_task_write_reject_reload_include ["real_task"]
    (fun _ => true) (fun _ _ _ => true) ghostRow ghostEntry (by decide) rfl
  exact ⟨by decide, h.1, h.2.1, h.2.2⟩

/-- C8 counterexample: the claim says a pre-existing row referencing an
unknown task is skipped and logged at reload time; for the concrete
`ghost` row (task not in the registry `["real_task"]`) the rebuilt
schedule does contain the row and no error is logged. -/
theorem unknown_task_reload_cex :
    ¬ "ghost" ∈ ["real_task"] ∧
    (get_enabled_tasks [ghostRow]).1.map Prod.fst = ["ghost"] ∧
    (get_enabled_tasks [ghostRow]).2.length = 0 := by
  refine ⟨by decide, ?_, ?_⟩
  · rfl
  · rfl

/-! ### Validator key-recomputation claim -/

/-- C10: whenever the write-time validator accepts a row, the returned
row keeps every data field of the input and carries a `task_key` equal
to `get_task_key` applied to its own task and its own parsed
args/kwargs; the caller-supplied `task_key` is overwritten — replacing
it by any string `k` leaves the validator output unchanged. -/
theorem validator_recomputes_task_key (registry : List String)
    (hasHeader : String → Bool)
    (checkArguments : String → List PyValue → List (String × PyValue) → Bool)
    (k : String) (target out : ScheduleRow)
    (h : before_validator registry hasHeader checkArguments target = .ok out) :
    out.task = target.task ∧ out.args = target.args ∧ out.kwargs = target.kwargs ∧
    out.schedule = target.schedule ∧ out.enabled = target.enabled ∧
    ((jsonLoads out.args).bind pyIterate).bind (fun args =>
      ((jsonLoads out.kwargs).bind pyItems).map (fun kwargs =>
        get_task_key out.task args kwargs)) = some out.task_key ∧
    before_validator registry hasHeader checkArguments { target with task_key := k }
      = .ok out := by
  have h0 := h
  unfold before_validator at h
  split at h
  · exact Except.noConfusion h
  · split at h
    · exact Except.noConfusion h
    · rename_i argsVal hargs
      split at h
      · exact Except.noConfusion h
      · rename_i kwargsVal hkw
        split at h
        · rename_i args kwargs hit hitems
          split at h
          · exact Except.noConfusion h
          · split at h
            · rename_i minute hour day_of_month month_of_year day_of_week hsp
              split at h
              · cases h
                refine ⟨rfl, rfl, rfl, rfl, rfl, ?_, h0⟩
                show ((jsonLoads target.args).bind pyIterate).bind (fun args =>
                  ((jsonLoads target.kwargs).bind pyItems).map (fun kwargs =>
                    get_task_key target.task args kwargs))
                  = some (get_task_key target.task args kwargs)
                rw [hargs, hkw]
                show (pyIterate argsVal).bind (fun args =>
                  (pyItems kwargsVal).map (fun kwargs =>
                    get_task_key target.task args kwargs))
                  = some (get_task_key target.task args kwargs)
                rw [hit, hitems]
                rfl
              · exact Except.noConfusion h
            · exact Except.noConfusion h
        · exact Except.noConfusion h

/-- Witness for C10 at a concrete input: the validator accepts the row
and overwrites the caller-supplied key `WRONG` with the recomputed key;
the theorem instance confirms the recomputed key equals `get_task_key`
of the row fields, for any replacement input key (`ANY` here). -/
theorem validator_recomputes_task_key_witness :
    before_validator ["real_task"] (fun _ => true) (fun _ _ _ => true) c10row
      = .ok c10out ∧
    (c10out.task = c10row.task ∧ c10out.args = c10row.args ∧
      c10out.kwargs = c10row.kwargs ∧ c10out.schedule = c10row.schedule ∧
      c10out.enabled = c10row.enabled ∧
      ((jsonLoads c10out.args).bind pyIterate).bind (fun args =>
        ((jsonLoads c10out.kwargs).bind pyItems).map (fun kwargs =>
          get_task_key c10out.task args kwargs)) = some c10out.task_key ∧
      before_validator ["real_task"] (fun _ => true) (fun _ _ _ => true)
        { c10row with task_key := "ANY" } = .ok c10out) :=
  ⟨rfl, validator_recomputes_task_key ["real_task"] (fun _ => true)
    (fun _ _ _ => true) "ANY" c10row c10out rfl⟩

end CeleryBeatSqlalchemy
